import Mathlib

/-!
Verification development for the node-ofono client library: a shallow
embedding of its remote-object mirroring layer (Modem, VoiceCall,
NetworkRegistration, Handsfree, VoiceCallManager, Ofono directory) and
proofs about the mirroring, capability-gating, decoding and RPC-dispatch
behaviour of the TypeScript source.

Conventions of the embedding:
* JavaScript runtime values are modelled by `JSVal`; TypeScript casts are
  erased at runtime, so snapshot fields hold arbitrary `JSVal`s exactly as
  the handlers store whatever a notification carries.
* A DBus message bus handle is modelled by `Bus`; `Bus.fresh` stands for a
  connection produced by a call to dbus-next's `systemBus()` (the default
  value of every optional `bus` parameter), as opposed to a handle passed
  down from a caller.
* Each outgoing piece of bus traffic is recorded as an `RPC` value; methods
  that talk to the bus return the list of RPCs they issue.
* A `PropertyChanged` notification is a pair `(propertyName, value)` of the
  property name and the payload of its variant (`Chg`).
* Failures thrown by the TypeScript code are modelled with `Except String`,
  carrying the exact error message; a missing mandatory key in a raw
  property map (a JavaScript `TypeError` from reading `.value` of
  `undefined`) is modelled as an `Except.error` tagged "TypeError:".
-/

/-- A JavaScript runtime value as it appears in this library: `undefined`,
`null`, booleans, numbers, strings, arrays of strings, DBus `Variant`
wrappers, and the plain-object records built by `constructTechnology` /
`constructFeatures` (a map from flag names to booleans). -/
inductive JSVal where
  | undefined : JSVal
  | null : JSVal
  | bool : Bool → JSVal
  | num : Int → JSVal
  | str : String → JSVal
  | strList : List String → JSVal
  | variant : String → JSVal → JSVal
  | boolMap : List (String × Bool) → JSVal
deriving DecidableEq, Repr

/-- A DBus connection handle: either a handle supplied by a caller
(identified by a number) or a fresh default connection created by a call to
`systemBus()`. -/
inductive Bus where
  | given : Nat → Bus
  | fresh : Bus
deriving DecidableEq, Repr

/-- One piece of traffic issued against the bus. -/
inductive RPC where
  | getProxyObject : String → String → RPC
  | methodCall : String → String → List JSVal → RPC
deriving DecidableEq, Repr

/-- A raw property map as delivered by DBus (`{[key: string]: {value:
unknown}}`): for each property name, either `some` variant payload or
`none` when the remote omitted the property. -/
def RawMap : Type := String → Option JSVal

/-- A `PropertyChanged` notification: property name and variant payload. -/
abbrev Chg : Type := String × JSVal

/-- Models TypeScript `x ?? null` applied to a possibly-absent value. -/
def nullish (v : JSVal) : JSVal :=
  match v with
  | .undefined => .null
  | .null => .null
  | v => v

/-- Models `m.Key?.value`: the payload if the property is present,
JavaScript `undefined` otherwise. -/
def optGet (m : RawMap) (k : String) : JSVal :=
  (m k).getD .undefined

/-- Models `m.Key.value` on a mandatory property: reading `.value` of
`undefined` throws a `TypeError` in JavaScript. -/
def mandGet (m : RawMap) (k : String) : Except String JSVal :=
  match m k with
  | some v => .ok v
  | none => .error ("TypeError: " ++ k)

/-- Models `Array.prototype.indexOf` on an array of strings: the index of
the first occurrence, or `-1` when the element does not occur. -/
def strListIndexOf (l : List String) (x : String) : Int :=
  match l with
  | [] => -1
  | y :: ys =>
    if y = x then 0
    else
      let r := strListIndexOf ys x
      if r = -1 then -1 else r + 1

/-- Models `modem.interfaces.indexOf(x)`; the `interfaces` snapshot field
is typed `string[]`, so only the string-array case is meaningful. -/
def jsIndexOf (v : JSVal) (x : String) : Int :=
  match v with
  | .strList l => strListIndexOf l x
  | _ => -1

/-- Models a synchronous `Array.prototype.map` whose callback may throw
(the first thrown error aborts the whole map). -/
def listMapE {α β : Type} (f : α → Except String β) : List α → Except String (List β)
  | [] => .ok []
  | a :: l => do
    let b ← f a
    let bs ← listMapE f l
    pure (b :: bs)

/-- The payload of the last notification in `evs` (arrival order) whose
property name is `nm`, if any. -/
def lastNamed (nm : String) : List Chg → Option JSVal
  | [] => none
  | e :: t =>
    match lastNamed nm t with
    | some v => some v
    | none => if e.1 = nm then some e.2 else none

/-! ## Modem (src/lib/modem.ts) -/

/-- The state of a `Modem` mirror: its DBus object path, the snapshot of
the eleven modelled properties, and the bus handle it was constructed
with. -/
structure ModemMirror where
  path : String
  online : JSVal
  powered : JSVal
  lockdown : JSVal
  emergency : JSVal
  name : JSVal
  manufacturer : JSVal
  model : JSVal
  revision : JSVal
  serial : JSVal
  interfaces : JSVal
  type : JSVal
  bus : Bus
deriving DecidableEq, Repr

/-- The `data` parameter of `Modem`'s private constructor; optional fields
carry `JSVal.undefined` when the corresponding raw property was absent. -/
structure ModemData where
  online : JSVal
  powered : JSVal
  lockdown : JSVal
  emergency : JSVal
  name : JSVal
  manufacturer : JSVal
  model : JSVal
  revision : JSVal
  serial : JSVal
  interfaces : JSVal
  type : JSVal
deriving DecidableEq, Repr

/-- `Modem`'s private constructor: mandatory fields are stored as given,
optional fields are null-coalesced (`data.x ?? null`), and the bus defaults
to `systemBus()` when not supplied. -/
def modemNew (path : String) (d : ModemData) (bus : Option Bus) : ModemMirror :=
  { path := path
    online := d.online
    powered := d.powered
    lockdown := d.lockdown
    emergency := nullish d.emergency
    name := nullish d.name
    manufacturer := nullish d.manufacturer
    model := nullish d.model
    revision := nullish d.revision
    serial := nullish d.serial
    interfaces := d.interfaces
    type := d.type
    bus := bus.getD Bus.fresh }

/-- `Modem.fromDBusObject`: selects the raw values (mandatory `Online`,
`Powered`, `Lockdown`, `Interfaces`, `Type`; the rest via `?.`) and invokes
the constructor. -/
def modemFromDBusObject (path : String) (m : RawMap) (bus : Option Bus) :
    Except String ModemMirror := do
  let onl ← mandGet m "Online"
  let pw ← mandGet m "Powered"
  let lk ← mandGet m "Lockdown"
  let ifs ← mandGet m "Interfaces"
  let ty ← mandGet m "Type"
  pure (modemNew path
    { online := onl
      powered := pw
      lockdown := lk
      emergency := optGet m "Emergency"
      name := optGet m "Name"
      manufacturer := optGet m "Manufacturer"
      model := optGet m "Model"
      revision := optGet m "Revision"
      serial := optGet m "Serial"
      interfaces := ifs
      type := ty } bus)

/-- The body of `Modem.listenForChanges`' `PropertyChanged` handler: the
switch on the property name updates the matching snapshot field and emits a
local `change` event (the returned `Bool`); the default branch logs a
warning and returns before the emit. -/
def modemStep (s : ModemMirror) (name : String) (value : JSVal) : ModemMirror × Bool :=
  match name with
  | "Online" => ({ s with online := value }, true)
  | "Powered" => ({ s with powered := value }, true)
  | "Lockdown" => ({ s with lockdown := value }, true)
  | "Emergency" => ({ s with emergency := value }, true)
  | "Name" => ({ s with name := value }, true)
  | "Manufacturer" => ({ s with manufacturer := value }, true)
  | "Model" => ({ s with model := value }, true)
  | "Revision" => ({ s with revision := value }, true)
  | "Serial" => ({ s with serial := value }, true)
  | "Interfaces" => ({ s with interfaces := value }, true)
  | "Type" => ({ s with type := value }, true)
  | _ => (s, false)

/-- The snapshot after one incoming `Modem` notification. -/
def modemApply (s : ModemMirror) (e : Chg) : ModemMirror :=
  (modemStep s e.1 e.2).1

/-- The snapshot after a finite sequence of `Modem` notifications applied
in arrival order. -/
def modemRun (s : ModemMirror) (evs : List Chg) : ModemMirror :=
  evs.foldl modemApply s

/-- The `online` setter: updates the snapshot optimistically and issues a
`SetProperty` write (via `setProperty('Online', 'b', v)`). -/
def modemSetOnline (s : ModemMirror) (v : JSVal) : ModemMirror × List RPC :=
  ({ s with online := v },
   [RPC.getProxyObject "org.ofono" s.path,
    RPC.methodCall "org.ofono.Modem" "SetProperty" [JSVal.str "Online", JSVal.variant "b" v]])

/-- The `powered` setter. -/
def modemSetPowered (s : ModemMirror) (v : JSVal) : ModemMirror × List RPC :=
  ({ s with powered := v },
   [RPC.getProxyObject "org.ofono" s.path,
    RPC.methodCall "org.ofono.Modem" "SetProperty" [JSVal.str "Powered", JSVal.variant "b" v]])

/-- The `lockdown` setter. -/
def modemSetLockdown (s : ModemMirror) (v : JSVal) : ModemMirror × List RPC :=
  ({ s with lockdown := v },
   [RPC.getProxyObject "org.ofono" s.path,
    RPC.methodCall "org.ofono.Modem" "SetProperty" [JSVal.str "Lockdown", JSVal.variant "b" v]])

/-! ## VoiceCall (src/lib/voiceCall.ts) -/

/-- The state of a `VoiceCall` mirror: path, the snapshot of the eleven
modelled properties, the bus handle, and whether the change subscription
started from the constructor is active (`listenForChanges` is invoked
without `await`, so a failure of its bus traffic does not surface). -/
structure VoiceCallMirror where
  path : String
  lineIdentification : JSVal
  incomingLine : JSVal
  name : JSVal
  multiparty : JSVal
  state : JSVal
  startTime : JSVal
  information : JSVal
  icon : JSVal
  emergency : JSVal
  remoteHeld : JSVal
  remoteMultiparty : JSVal
  bus : Bus
  subscribed : Bool
deriving DecidableEq, Repr

/-- The `data` parameter of `VoiceCall`'s private constructor. -/
structure VoiceCallData where
  lineIdentification : JSVal
  incomingLine : JSVal
  name : JSVal
  multiparty : JSVal
  state : JSVal
  startTime : JSVal
  information : JSVal
  icon : JSVal
  emergency : JSVal
  remoteHeld : JSVal
  remoteMultiparty : JSVal
deriving DecidableEq, Repr

/-- Models `VoiceCallState[v as keyof typeof VoiceCallState]`: a TypeScript
string enum has no reverse mapping, so indexing looks the string up among
the member NAMES (`Active`, `Held`, ...) and yields the member's value (the
lowercase wire string); any other index — including the lowercase wire
values themselves — yields JavaScript `undefined`. -/
def vcsLookup (v : JSVal) : JSVal :=
  match v with
  | .str "Active" => .str "active"
  | .str "Held" => .str "held"
  | .str "Dialing" => .str "dialing"
  | .str "Alerting" => .str "alerting"
  | .str "Incoming" => .str "incoming"
  | .str "Waiting" => .str "waiting"
  | .str "Disconnected" => .str "disconnected"
  | _ => .undefined

/-- `VoiceCall`'s private constructor: every field is stored as given
(no null-coalescing, unlike `Modem`), except `state`, which is stored as
`VoiceCallState[data.state as keyof typeof VoiceCallState]`. The `subOk`
argument records whether the fire-and-forget `listenForChanges` managed to
register its listener. -/
def voiceCallNew (path : String) (d : VoiceCallData) (bus : Option Bus)
    (subOk : Bool) : VoiceCallMirror :=
  { path := path
    lineIdentification := d.lineIdentification
    incomingLine := d.incomingLine
    name := d.name
    multiparty := d.multiparty
    state := vcsLookup d.state
    startTime := d.startTime
    information := d.information
    icon := d.icon
    emergency := d.emergency
    remoteHeld := d.remoteHeld
    remoteMultiparty := d.remoteMultiparty
    bus := bus.getD Bus.fresh
    subscribed := subOk }

/-- `VoiceCall.fromDBusObject`: selects the raw values (mandatory
`LineIdentification`, `Name`, `Multiparty`, `State`, `Emergency`,
`RemoteHeld`, `RemoteMultiparty`; `IncomingLine`, `StartTime`,
`Information`, `Icon` via `?.`) and invokes the constructor. -/
def voiceCallFromDBusObject (path : String) (m : RawMap) (bus : Option Bus)
    (subOk : Bool) : Except String VoiceCallMirror := do
  let li ← mandGet m "LineIdentification"
  let nm ← mandGet m "Name"
  let mp ← mandGet m "Multiparty"
  let st ← mandGet m "State"
  let em ← mandGet m "Emergency"
  let rh ← mandGet m "RemoteHeld"
  let rm ← mandGet m "RemoteMultiparty"
  pure (voiceCallNew path
    { lineIdentification := li
      incomingLine := optGet m "IncomingLine"
      name := nm
      multiparty := mp
      state := st
      startTime := optGet m "StartTime"
      information := optGet m "Information"
      icon := optGet m "Icon"
      emergency := em
      remoteHeld := rh
      remoteMultiparty := rm } bus subOk)

/-- The bus behaviour visible to `VoiceCall.fromPath` and to the
constructor's `listenForChanges`: the combined outcome of the
`getProxyObject` + `GetProperties` fetch, and whether the subscription's
own bus traffic succeeds. -/
structure VoiceCallBusOracle where
  fetch : Except String RawMap
  subscribeOk : Bool

/-- `VoiceCall.fromPath`: issues the property fetch, decodes, and invokes
the constructor. A fetch failure rejects the whole call; the subscription
is started by the constructor without `await`, so its failure does NOT
reject — the mirror is returned with `subscribed := false`. -/
def voiceCallFromPath (path : String) (bus : Option Bus)
    (o : VoiceCallBusOracle) : Except String VoiceCallMirror := do
  let props ← o.fetch
  let li ← mandGet props "LineIdentification"
  let nm ← mandGet props "Name"
  let mp ← mandGet props "Multiparty"
  let st ← mandGet props "State"
  let em ← mandGet props "Emergency"
  let rh ← mandGet props "RemoteHeld"
  let rm ← mandGet props "RemoteMultiparty"
  pure (voiceCallNew path
    { lineIdentification := li
      incomingLine := optGet props "IncomingLine"
      name := nm
      multiparty := mp
      state := st
      startTime := optGet props "StartTime"
      information := optGet props "Information"
      icon := optGet props "Icon"
      emergency := em
      remoteHeld := rh
      remoteMultiparty := rm } bus o.subscribeOk)

/-- The body of `VoiceCall.listenForChanges`' `PropertyChanged` handler:
every case stores the raw payload except `State`, which stores the enum
lookup of the payload; the default branch logs and returns before the
`change` emit. -/
def voiceCallStep (s : VoiceCallMirror) (name : String) (value : JSVal) :
    VoiceCallMirror × Bool :=
  match name with
  | "LineIdentification" => ({ s with lineIdentification := value }, true)
  | "IncomingLine" => ({ s with incomingLine := value }, true)
  | "Name" => ({ s with name := value }, true)
  | "Multiparty" => ({ s with multiparty := value }, true)
  | "State" => ({ s with state := vcsLookup value }, true)
  | "StartTime" => ({ s with startTime := value }, true)
  | "Information" => ({ s with information := value }, true)
  | "Icon" => ({ s with icon := value }, true)
  | "Emergency" => ({ s with emergency := value }, true)
  | "RemoteHeld" => ({ s with remoteHeld := value }, true)
  | "RemoteMultiparty" => ({ s with remoteMultiparty := value }, true)
  | _ => (s, false)

/-- The snapshot after one incoming `VoiceCall` notification. -/
def voiceCallApply (s : VoiceCallMirror) (e : Chg) : VoiceCallMirror :=
  (voiceCallStep s e.1 e.2).1

/-- The snapshot after a finite sequence of `VoiceCall` notifications
applied in arrival order. -/
def voiceCallRun (s : VoiceCallMirror) (evs : List Chg) : VoiceCallMirror :=
  evs.foldl voiceCallApply s

/-- `VoiceCall.answer()`: resolves the interface and then invokes the
remote `Hangup` method (not `Answer`). -/
def voiceCallAnswer (vc : VoiceCallMirror) : List RPC :=
  [RPC.getProxyObject "org.ofono" vc.path,
   RPC.methodCall "org.ofono.VoiceCall" "Hangup" []]

/-- `VoiceCall.hangup()`: resolves the interface and invokes `Hangup`. -/
def voiceCallHangup (vc : VoiceCallMirror) : List RPC :=
  [RPC.getProxyObject "org.ofono" vc.path,
   RPC.methodCall "org.ofono.VoiceCall" "Hangup" []]

/-! ## NetworkRegistration (src/lib/networkRegistration.ts) -/

/-- The state of a `NetworkRegistration` mirror. -/
structure NetworkRegistrationMirror where
  path : String
  mode : JSVal
  status : JSVal
  locationAreaCode : JSVal
  cellID : JSVal
  mobileCountryCode : JSVal
  mobileNetworkCode : JSVal
  technology : JSVal
  name : JSVal
  strength : JSVal
  baseStation : JSVal
  bus : Bus
deriving DecidableEq, Repr

/-- The `data` parameter of `NetworkRegistration`'s private constructor. -/
structure NetworkRegistrationData where
  mode : JSVal
  status : JSVal
  locationAreaCode : JSVal
  cellID : JSVal
  mobileCountryCode : JSVal
  mobileNetworkCode : JSVal
  technology : JSVal
  name : JSVal
  strength : JSVal
  baseStation : JSVal
deriving DecidableEq, Repr

/-- Models `NetworkRegistrationMode[v as keyof typeof
NetworkRegistrationMode]` (member-name lookup, no reverse mapping). -/
def nrModeLookup (v : JSVal) : JSVal :=
  match v with
  | .str "Auto" => .str "auto"
  | .str "AutoOnly" => .str "auto-only"
  | .str "Manual" => .str "manual"
  | _ => .undefined

/-- Models `NetworkRegistrationStatus[v as keyof typeof
NetworkRegistrationStatus]` (member-name lookup, no reverse mapping). -/
def nrStatusLookup (v : JSVal) : JSVal :=
  match v with
  | .str "Unregistered" => .str "unregistered"
  | .str "Registered" => .str "registered"
  | .str "Searching" => .str "searching"
  | .str "Denied" => .str "denied"
  | .str "Unknown" => .str "unknown"
  | .str "Roaming" => .str "roaming"
  | _ => .undefined

/-- `constructTechnology`: builds the flags object from the raw string
array (`t.includes(...)` per technology). -/
def constructTechnology (t : List String) : JSVal :=
  .boolMap
    [("GSM", t.contains "gsm"),
     ("EDGE", t.contains "edge"),
     ("UMTS", t.contains "umts"),
     ("HSPA", t.contains "hspa"),
     ("LTE", t.contains "lte")]

/-- `NetworkRegistration`'s private constructor: `mode`/`status` go through
the enum member-name lookups, numeric/string optionals are null-coalesced,
and `technology` is built by `constructTechnology` when the raw value is
truthy (an array is always truthy) and `null` otherwise. -/
def networkRegistrationNew (path : String) (d : NetworkRegistrationData)
    (bus : Option Bus) : NetworkRegistrationMirror :=
  { path := path
    mode := nrModeLookup d.mode
    status := nrStatusLookup d.status
    locationAreaCode := nullish d.locationAreaCode
    cellID := nullish d.cellID
    mobileCountryCode := nullish d.mobileCountryCode
    mobileNetworkCode := nullish d.mobileNetworkCode
    technology :=
      match d.technology with
      | .strList t => constructTechnology t
      | _ => .null
    name := d.name
    strength := nullish d.strength
    baseStation := nullish d.baseStation
    bus := bus.getD Bus.fresh }

/-- `NetworkRegistration.ofModem`: throws before any bus traffic when the
modem's capability set lacks `org.ofono.NetworkRegistration`; otherwise
resolves the proxy, fetches the properties (the `props` argument stands for
the `GetProperties` reply) and invokes the constructor with the modem's own
bus handle. The second component is the list of RPCs issued. -/
def networkRegistrationOfModem (m : ModemMirror) (props : RawMap) :
    Except String NetworkRegistrationMirror × List RPC :=
  if jsIndexOf m.interfaces "org.ofono.NetworkRegistration" = -1 then
    (.error ("node-ofono: Network.ofModem(): Modem " ++ m.path ++
      " does not support NetworkRegistration interface"), [])
  else
    let rpcs := [RPC.getProxyObject "org.ofono" m.path,
      RPC.methodCall "org.ofono.NetworkRegistration" "GetProperties" []]
    let r : Except String NetworkRegistrationMirror := do
      let md ← mandGet props "Mode"
      let st ← mandGet props "Status"
      let nm ← mandGet props "Name"
      pure (networkRegistrationNew m.path
        { mode := md
          status := st
          locationAreaCode := optGet props "LocationAreaCode"
          cellID := optGet props "CellId"
          mobileCountryCode := optGet props "MobileCountryCode"
          mobileNetworkCode := optGet props "MobileNetworkCode"
          technology := optGet props "Technology"
          name := nm
          strength := optGet props "Strength"
          baseStation := optGet props "BaseStation" } (some m.bus))
    (r, rpcs)

/-- The body of `NetworkRegistration.listenForChanges`' `PropertyChanged`
handler. Every known case stores the raw payload and `break`s; the default
branch logs a warning and ALSO `break`s (unlike every sibling handler,
which `return`s), so control falls through to `this.emit('change')` in
every case — the returned `Bool` is therefore always `true`. -/
def networkRegistrationStep (s : NetworkRegistrationMirror) (name : String)
    (value : JSVal) : NetworkRegistrationMirror × Bool :=
  match name with
  | "Mode" => ({ s with mode := value }, true)
  | "Status" => ({ s with status := value }, true)
  | "LocationAreaCode" => ({ s with locationAreaCode := value }, true)
  | "CellId" => ({ s with cellID := value }, true)
  | "MobileCountryCode" => ({ s with mobileCountryCode := value }, true)
  | "MobileNetworkCode" => ({ s with mobileNetworkCode := value }, true)
  | "Technology" => ({ s with technology := value }, true)
  | "Name" => ({ s with name := value }, true)
  | "Strength" => ({ s with strength := value }, true)
  | "BaseStation" => ({ s with baseStation := value }, true)
  | _ => (s, true)

/-! ## VoiceCallManager (src/lib/voiceCallManager.ts) -/

/-- The state of a `VoiceCallManager` mirror. -/
structure VoiceCallManagerMirror where
  path : String
  emergencyNumbers : JSVal
  bus : Bus
deriving DecidableEq, Repr

/-- `VoiceCallManager.ofModem`: throws before any bus traffic when the
modem's capability set lacks `org.ofono.VoiceCallManager`; otherwise
resolves the proxy, fetches the properties and invokes the constructor with
the modem's own bus handle. -/
def voiceCallManagerOfModem (m : ModemMirror) (props : RawMap) :
    Except String VoiceCallManagerMirror × List RPC :=
  if jsIndexOf m.interfaces "org.ofono.VoiceCallManager" = -1 then
    (.error ("node-ofono: VoiceCallManager.ofModem(): Modem " ++ m.path ++
      " does not support VoiceCallManager interface"), [])
  else
    let rpcs := [RPC.getProxyObject "org.ofono" m.path,
      RPC.methodCall "org.ofono.VoiceCallManager" "GetProperties" []]
    let r : Except String VoiceCallManagerMirror := do
      let en ← mandGet props "EmergencyNumbers"
      pure { path := m.path, emergencyNumbers := en, bus := m.bus }
    (r, rpcs)

/-- `VoiceCallManager.getCalls`: fetches the `(path, propertyMap)` pairs
(the `calls` argument stands for the `GetCalls` reply) and maps each
through `VoiceCall.fromDBusObject(c, this.bus)` — the manager's own bus
handle is passed to every child. `subOk` stands for the outcome of each
child's fire-and-forget subscription. -/
def vcmGetCalls (vcm : VoiceCallManagerMirror) (calls : List (String × RawMap))
    (subOk : Bool) : Except String (List VoiceCallMirror) × List RPC :=
  (listMapE (fun c => voiceCallFromDBusObject c.1 c.2 (some vcm.bus) subOk) calls,
   [RPC.getProxyObject "org.ofono" vcm.path,
    RPC.methodCall "org.ofono.VoiceCallManager" "GetCalls" []])

/-- The string encoding of the `hideCallerID` argument of `Dial`. -/
def dialHideArg (hide : Option Bool) : String :=
  match hide with
  | none => "default"
  | some true => "enabled"
  | some false => "disabled"

/-- `VoiceCallManager.dial`: issues `Dial` (whose reply is the new call's
object path, the `callPath` argument) and then builds the child mirror via
`VoiceCall.fromPath(path)` — with NO bus argument, so the child gets the
default `systemBus()` connection, not the manager's handle. -/
def vcmDial (vcm : VoiceCallManagerMirror) (number : String)
    (hide : Option Bool) (callPath : String) (o : VoiceCallBusOracle) :
    Except String VoiceCallMirror × List RPC :=
  (voiceCallFromPath callPath none o,
   [RPC.getProxyObject "org.ofono" vcm.path,
    RPC.methodCall "org.ofono.VoiceCallManager" "Dial"
      [JSVal.str number, JSVal.str (dialHideArg hide)]])

/-- `VoiceCallManager.privateChat`: issues `PrivateChat` (whose reply is a
list of call paths, the `paths` argument) and builds each child via
`VoiceCall.fromPath(c, this.bus)` — the manager's bus is passed down. -/
def vcmPrivateChat (vcm : VoiceCallManagerMirror) (path : String)
    (paths : List String) (o : VoiceCallBusOracle) :
    Except String (List VoiceCallMirror) × List RPC :=
  (listMapE (fun c => voiceCallFromPath c (some vcm.bus) o) paths,
   [RPC.getProxyObject "org.ofono" vcm.path,
    RPC.methodCall "org.ofono.VoiceCallManager" "PrivateChat" [JSVal.str path]])

/-- `VoiceCallManager.createMultiparty`: issues `CreateMultiparty` and
builds each child via `VoiceCall.fromPath(c, this.bus)`. -/
def vcmCreateMultiparty (vcm : VoiceCallManagerMirror) (paths : List String)
    (o : VoiceCallBusOracle) : Except String (List VoiceCallMirror) × List RPC :=
  (listMapE (fun c => voiceCallFromPath c (some vcm.bus) o) paths,
   [RPC.getProxyObject "org.ofono" vcm.path,
    RPC.methodCall "org.ofono.VoiceCallManager" "CreateMultiparty" []])

/-- `VoiceCallManager.swapCalls()`: resolves the interface and invokes the
remote `Transfer` method (not `SwapCalls`, and not `Hangup` either). -/
def vcmSwapCalls (vcm : VoiceCallManagerMirror) : List RPC :=
  [RPC.getProxyObject "org.ofono" vcm.path,
   RPC.methodCall "org.ofono.VoiceCallManager" "Transfer" []]

/-- `VoiceCallManager.transfer()`: resolves the interface and invokes
`Transfer`. -/
def vcmTransfer (vcm : VoiceCallManagerMirror) : List RPC :=
  [RPC.getProxyObject "org.ofono" vcm.path,
   RPC.methodCall "org.ofono.VoiceCallManager" "Transfer" []]

/-- The per-character test of `sendTones`' guard `/^[0-9a-d*#]*$/i`: digits,
the letters a–d in either case (the `i` flag, modelled by `toLower`), `*`
and `#`. -/
def toneCharTest (c : Char) : Bool :=
  (decide ('0' ≤ c) && decide (c ≤ '9')) ||
  (decide ('a' ≤ c.toLower) && decide (c.toLower ≤ 'd')) ||
  c = '*' || c = '#'

/-- `VoiceCallManager.sendTones`: throws before any bus traffic when the
string fails the `/^[0-9a-d*#]*$/i` test; otherwise resolves the interface
and issues a single `SendTones` carrying the string as given. -/
def vcmSendTones (vcm : VoiceCallManagerMirror) (tones : String) :
    Except String Unit × List RPC :=
  if !(tones.data.all toneCharTest) then
    (.error "node-ofono: VoiceCallManager: sendTones(): invalid tone(s)", [])
  else
    (.ok (),
     [RPC.getProxyObject "org.ofono" vcm.path,
      RPC.methodCall "org.ofono.VoiceCallManager" "SendTones" [JSVal.str tones]])

/-! ## Handsfree (src/lib/handsfree.ts) -/

/-- The state of a `Handsfree` mirror. -/
structure HandsfreeMirror where
  path : String
  features : JSVal
  inbandRinging : JSVal
  voiceRecognition : JSVal
  echoCancellingNoiseReduction : JSVal
  batteryChargeLevel : JSVal
  subscriberNumbers : JSVal
  distractedDrivingReduction : JSVal
  bus : Bus
deriving DecidableEq, Repr

/-- `constructFeatures`: builds the flags object from the raw string array
(`f.includes(...)` per feature). -/
def constructFeatures (f : List String) : JSVal :=
  .boolMap
    [("VoiceRecognition", f.contains "voice-recognition"),
     ("AttachVoiceTag", f.contains "attach-voice-tag"),
     ("EchoCancellingAndNoiseReduction", f.contains "echo-canceling-and-noise-reduction"),
     ("ThreeWayCalling", f.contains "three-way-calling"),
     ("ReleaseAllHeld", f.contains "release-all-held"),
     ("ReleaseSpecifiedActiveCall", f.contains "release-specified-active-call"),
     ("PrivateChat", f.contains "private-chat"),
     ("CreateMultiparty", f.contains "create-multiparty"),
     ("Transfer", f.contains "transfer"),
     ("HfIndicators", f.contains "hf-indicators")]

/-- `Handsfree.ofModem`: throws before any bus traffic when the modem's
capability set lacks `org.ofono.Handsfree`; otherwise resolves the proxy,
fetches the properties and invokes the constructor (which builds `features`
via `constructFeatures` and null-coalesces the two optional fields) with
the modem's own bus handle. -/
def handsfreeOfModem (m : ModemMirror) (props : RawMap) :
    Except String HandsfreeMirror × List RPC :=
  if jsIndexOf m.interfaces "org.ofono.Handsfree" = -1 then
    (.error ("node-ofono: Handsfree.ofModem(): Modem " ++ m.path ++
      " does not support Handsfree interface"), [])
  else
    let rpcs := [RPC.getProxyObject "org.ofono" m.path,
      RPC.methodCall "org.ofono.Handsfree" "GetProperties" []]
    let r : Except String HandsfreeMirror := do
      let ft ← mandGet props "Features"
      let ir ← mandGet props "InbandRinging"
      let vr ← mandGet props "VoiceRecognition"
      let bc ← mandGet props "BatteryChargeLevel"
      let sn ← mandGet props "SubscriberNumbers"
      pure { path := m.path
             features := match ft with
               | .strList f => constructFeatures f
               | _ => .undefined
             inbandRinging := ir
             voiceRecognition := vr
             echoCancellingNoiseReduction :=
               nullish (optGet props "EchoCancellingNoiseReduction")
             batteryChargeLevel := bc
             subscriberNumbers := sn
             distractedDrivingReduction :=
               nullish (optGet props "DistractedDrivingReduction")
             bus := m.bus }
    (r, rpcs)

/-! ## Ofono directory (src/lib/ofono.ts) -/

/-- The state of the `Ofono` directory: just the bus handle it was
constructed with. -/
structure OfonoMirror where
  bus : Bus
deriving DecidableEq, Repr

/-- `Ofono.getModems`: issues `GetModems` (the `modems` argument stands for
its reply) and maps each pair through `Modem.fromDBusObject(m, this.bus)` —
the directory's own bus handle is passed to every child. -/
def ofonoGetModems (ofo : OfonoMirror) (modems : List (String × RawMap)) :
    Except String (List ModemMirror) × List RPC :=
  (listMapE (fun m => modemFromDBusObject m.1 m.2 (some ofo.bus)) modems,
   [RPC.getProxyObject "org.ofono" "/",
    RPC.methodCall "org.ofono.Manager" "GetModems" []])

/-- The body of `Ofono.listenForChanges`' `ModemAdded` handler: the child
modem is built via `Modem.fromDBusObject(modem)` — with NO bus argument, so
the child gets the default `systemBus()` connection, not the directory's
handle. -/
def ofonoModemAdded (_ofo : OfonoMirror) (modem : String × RawMap) :
    Except String ModemMirror :=
  modemFromDBusObject modem.1 modem.2 none

/-! ## Miscellaneous definitions used by the statements -/

/-- Whether an `RPC` is a method call of the given name. -/
def rpcIsMethod (r : RPC) (mth : String) : Bool :=
  match r with
  | .methodCall _ m2 _ => m2 = mth
  | _ => false

/-! ## Concrete data used by witnesses and counterexamples -/

/-- A raw voice-call property map with every mandatory property present and
every optional property (in particular `IncomingLine`) absent; `State`
carries the lowercase wire value `active` that oFono actually emits. -/
def rawVC : RawMap := fun k =>
  [("LineIdentification", JSVal.str "+15551234567"),
   ("Name", JSVal.str "Alice"),
   ("Multiparty", JSVal.bool false),
   ("State", JSVal.str "active"),
   ("Emergency", JSVal.bool false),
   ("RemoteHeld", JSVal.bool false),
   ("RemoteMultiparty", JSVal.bool false)].lookup k

/-- A raw modem property map with the mandatory properties and `Name`
present, all other optional properties absent. -/
def rawModemEx : RawMap := fun k =>
  [("Online", JSVal.bool true),
   ("Powered", JSVal.bool true),
   ("Lockdown", JSVal.bool false),
   ("Name", JSVal.str "MyModem"),
   ("Interfaces", JSVal.strList ["org.ofono.VoiceCallManager"]),
   ("Type", JSVal.str "hardware")].lookup k

/-- The empty raw property map. -/
def emptyRaw : RawMap := fun _ => none

/-- A modem whose capability set contains only `org.ofono.SimManager`. -/
def mEx : ModemMirror :=
  { path := "/modem7", online := .bool true, powered := .bool true,
    lockdown := .bool false, emergency := .null, name := .null,
    manufacturer := .null, model := .null, revision := .null, serial := .null,
    interfaces := .strList ["org.ofono.SimManager"], type := .str "hardware",
    bus := Bus.given 7 }

/-- A voice-call manager mirror on a caller-supplied bus handle. -/
def vcmEx : VoiceCallManagerMirror :=
  { path := "/modem7", emergencyNumbers := .strList ["911"], bus := Bus.given 7 }

/-- A live voice-call mirror whose snapshot `state` is the string
`active`. -/
def vcPrev : VoiceCallMirror :=
  { path := "/call0", lineIdentification := .str "+15551234567",
    incomingLine := .null, name := .str "Alice", multiparty := .bool false,
    state := .str "active", startTime := .null, information := .null,
    icon := .null, emergency := .bool false, remoteHeld := .bool false,
    remoteMultiparty := .bool false, bus := Bus.given 7, subscribed := true }

/-- A live network-registration mirror. -/
def nrEx : NetworkRegistrationMirror :=
  { path := "/modem7", mode := .str "auto", status := .str "registered",
    locationAreaCode := .null, cellID := .null, mobileCountryCode := .null,
    mobileNetworkCode := .null, technology := .null, name := .str "OpName",
    strength := .null, baseStation := .null, bus := Bus.given 7 }

/-- A bus on which the property fetch itself fails. -/
def oracleFetchFail : VoiceCallBusOracle :=
  { fetch := .error "RemoteFault: org.freedesktop.DBus.Error.NoReply",
    subscribeOk := true }

/-- A bus on which the fetch succeeds (with `rawVC`) but the subscription's
bus traffic fails. -/
def oracleNoSub : VoiceCallBusOracle :=
  { fetch := .ok rawVC, subscribeOk := false }

/-- A bus on which both the fetch (with `rawVC`) and the subscription
succeed. -/
def oracleSub : VoiceCallBusOracle :=
  { fetch := .ok rawVC, subscribeOk := true }

/-- The mirror `voiceCallFromPath "/call0" none oracleNoSub` produces: the
decoded `rawVC` snapshot, default bus, and NO active subscription. -/
def vcNoSubEx : VoiceCallMirror :=
  { path := "/call0", lineIdentification := .str "+15551234567",
    incomingLine := .undefined, name := .str "Alice", multiparty := .bool false,
    state := .undefined, startTime := .undefined, information := .undefined,
    icon := .undefined, emergency := .bool false, remoteHeld := .bool false,
    remoteMultiparty := .bool false, bus := Bus.fresh, subscribed := false }

/-- The mirror `voiceCallFromPath "/call0" (some (Bus.given 4)) oracleSub`
produces. -/
def vcSubEx : VoiceCallMirror :=
  { vcNoSubEx with bus := Bus.given 4, subscribed := true }

/-- The mirror `voiceCallFromDBusObject "/call0" rawVC (some (Bus.given 3))
true` produces. -/
def vcEx3 : VoiceCallMirror :=
  { vcNoSubEx with bus := Bus.given 3, subscribed := true }

/-- The mirror `voiceCallFromDBusObject "/call0" rawVC (some (Bus.given 7))
true` produces (a `getCalls` child of `vcmEx`). -/
def vcChild7 : VoiceCallMirror :=
  { vcNoSubEx with bus := Bus.given 7, subscribed := true }

/-- The mirror `voiceCallFromPath "/call1" none oracleSub` produces (a
`dial` child). -/
def vcDialChild : VoiceCallMirror :=
  { vcNoSubEx with path := "/call1", bus := Bus.fresh, subscribed := true }

/-- The mirror `voiceCallFromPath "/call1" (some (Bus.given 7)) oracleSub`
produces (a `privateChat`/`createMultiparty` child of `vcmEx`). -/
def vcPCChild : VoiceCallMirror :=
  { vcNoSubEx with path := "/call1", bus := Bus.given 7, subscribed := true }

/-- The mirror `modemFromDBusObject "/modem0" rawModemEx (some (Bus.given
2))` produces. -/
def mFromRawEx : ModemMirror :=
  { path := "/modem0", online := .bool true, powered := .bool true,
    lockdown := .bool false, emergency := .null, name := .str "MyModem",
    manufacturer := .null, model := .null, revision := .null, serial := .null,
    interfaces := .strList ["org.ofono.VoiceCallManager"],
    type := .str "hardware", bus := Bus.given 2 }

/-- The mirror the `ModemAdded` handler builds from `rawModemEx`: same
snapshot, but on a fresh default bus. -/
def mAddedEx : ModemMirror :=
  { mFromRawEx with bus := Bus.fresh }

/-- An `Ofono` directory on a caller-supplied bus handle. -/
def ofoEx : OfonoMirror := { bus := Bus.given 2 }

/-! ## Shared lemmas -/

/-- Last-writer-wins for a fold over notifications: if a handler `step`
writes `d v` into the field read by `g` exactly on notifications named
`nm` and leaves that field alone on every other name, then after any
notification sequence the field holds the decode of the last notification
named `nm`, or its initial value when none was. -/
theorem foldl_lastNamed {σ : Type} (step : σ → Chg → σ) (g : σ → JSVal)
    (nm : String) (d : JSVal → JSVal)
    (hset : ∀ s v, g (step s (nm, v)) = d v)
    (hframe : ∀ s n v, n ≠ nm → g (step s (n, v)) = g s) :
    ∀ (evs : List Chg) (s : σ),
      g (List.foldl step s evs) = ((lastNamed nm evs).map d).getD (g s) := by
  intro evs
  induction evs with
  | nil => intro s; rfl
  | cons e t ih =>
    intro s
    obtain ⟨n, v⟩ := e
    rw [List.foldl_cons, ih]
    cases h : lastNamed nm t with
    | some w => simp [lastNamed, h]
    | none =>
      simp only [lastNamed, h]
      by_cases hn : n = nm
      · subst hn; simp [hset]
      · simp [hn, hframe _ _ _ hn]

/-- `indexOf` never returns anything below `-1`. -/
theorem strListIndexOf_ge (l : List String) (x : String) :
    -1 ≤ strListIndexOf l x := by
  induction l with
  | nil => simp [strListIndexOf]
  | cons y ys ih =>
    simp only [strListIndexOf]
    split_ifs <;> omega

/-- `indexOf` returns `-1` exactly when the element is missing. -/
theorem strListIndexOf_eq_neg_one_iff (l : List String) (x : String) :
    strListIndexOf l x = -1 ↔ x ∉ l := by
  induction l with
  | nil => simp [strListIndexOf]
  | cons y ys ih =>
    have hge := strListIndexOf_ge ys x
    simp only [strListIndexOf, List.mem_cons]
    split_ifs with h1 h2
    · constructor
      · intro h; exact absurd h (by decide)
      · intro h; exact absurd (Or.inl h1.symm) h
    · constructor
      · intro _ hc
        rcases hc with hc | hc
        · exact h1 hc.symm
        · exact (ih.mp h2) hc
      · intro _; rfl
    · constructor
      · intro h; exact absurd h (by omega)
      · intro h
        exact absurd (Or.inr (by
          by_contra hc
          exact h2 (ih.mpr hc))) h

/-- Comparison of characters is comparison of their code points. -/
theorem char_le_iff (a b : Char) : a ≤ b ↔ a.toNat ≤ b.toNat := by
  rw [Char.le_def, UInt32.le_def, BitVec.le_def]
  exact Iff.rfl

/-- Equality of characters is equality of their code points. -/
theorem char_eq_iff (a b : Char) : a = b ↔ a.toNat = b.toNat := by
  constructor
  · intro h; rw [h]
  · intro h; exact Char.ext (UInt32.toNat.inj h)

/-- `Char.ofNatAux` preserves the code point. -/
theorem ofNatAux_toNat (n : Nat) (h : n.isValidChar) :
    (Char.ofNatAux n h).toNat = n := rfl

/-- The code point of `Char.toLower`: ASCII upper-case letters move up by
32, everything else is unchanged. -/
theorem toLower_toNat (c : Char) :
    c.toLower.toNat =
      if 65 ≤ c.toNat ∧ c.toNat ≤ 90 then c.toNat + 32 else c.toNat := by
  unfold Char.toLower
  split
  · next h =>
    rw [if_pos (by omega)]
    rw [Char.ofNat, dif_pos (Or.inl (by omega))]
    exact ofNatAux_toNat _ _
  · next h =>
    rw [if_neg (by omega)]

/-- The per-character guard of `sendTones` accepts exactly the digits, the
letters `a`–`d` in either case, `*` and `#`. -/
theorem toneCharTest_iff (c : Char) :
    toneCharTest c = true ↔
      (('0' ≤ c ∧ c ≤ '9') ∨ ('a' ≤ c ∧ c ≤ 'd') ∨ ('A' ≤ c ∧ c ≤ 'D') ∨
        c = '*' ∨ c = '#') := by
  have hv : ('0' : Char).toNat = 48 ∧ ('9' : Char).toNat = 57 ∧
      ('a' : Char).toNat = 97 ∧ ('d' : Char).toNat = 100 ∧
      ('A' : Char).toNat = 65 ∧ ('D' : Char).toNat = 68 ∧
      ('*' : Char).toNat = 42 ∧ ('#' : Char).toNat = 35 := by decide
  obtain ⟨e0, e9, ea, ed, eA, eD, es, eh⟩ := hv
  simp only [toneCharTest, Bool.or_eq_true, Bool.and_eq_true, decide_eq_true_eq,
    char_le_iff, char_eq_iff, toLower_toNat, e0, e9, ea, ed, eA, eD, es, eh]
  by_cases hu : 65 ≤ c.toNat ∧ c.toNat ≤ 90
  · rw [if_pos hu]; omega
  · rw [if_neg hu]; omega

/-- Every element of a successful `listMapE` is the successful image of
some element of the input list. -/
theorem listMapE_mem {α β : Type} (f : α → Except String β) :
    ∀ (l : List α) (bs : List β), listMapE f l = .ok bs →
      ∀ b ∈ bs, ∃ a ∈ l, f a = .ok b := by
  intro l
  induction l with
  | nil =>
    intro bs h b hb
    simp only [listMapE, Except.ok.injEq] at h
    rw [← h] at hb
    simp at hb
  | cons x xs ih =>
    intro bs h b hb
    simp only [listMapE, bind, Except.bind, pure, Except.pure] at h
    split at h
    · exact absurd h (by simp)
    · next y hy =>
      split at h
      · exact absurd h (by simp)
      · next ys hys =>
        simp only [Except.ok.injEq] at h
        rw [← h] at hb
        rcases List.mem_cons.mp hb with hb1 | hb2
        · exact ⟨x, List.mem_cons_self x xs, by rw [hy, hb1]⟩
        · obtain ⟨a, hal, hfa⟩ := ih ys hys b hb2
          exact ⟨a, List.mem_cons_of_mem x hal, hfa⟩

/-- A successful `voiceCallFromDBusObject` records the bus it was given
(default `systemBus()` when none) and the outcome of its subscription. -/
theorem voiceCallFromDBusObject_ok_bus (path : String) (m : RawMap)
    (bus : Option Bus) (subOk : Bool) (vc : VoiceCallMirror)
    (h : voiceCallFromDBusObject path m bus subOk = .ok vc) :
    vc.bus = bus.getD Bus.fresh ∧ vc.subscribed = subOk := by
  simp only [voiceCallFromDBusObject, bind, Except.bind, pure, Except.pure] at h
  repeat' split at h
  all_goals first
    | exact Except.noConfusion h
    | (simp only [Except.ok.injEq] at h; rw [← h]; exact ⟨rfl, rfl⟩)

/-- A successful `voiceCallFromPath` records the bus it was given and
whether the constructor's fire-and-forget subscription succeeded. -/
theorem voiceCallFromPath_ok_fields (path : String) (bus : Option Bus)
    (o : VoiceCallBusOracle) (mir : VoiceCallMirror)
    (h : voiceCallFromPath path bus o = .ok mir) :
    mir.bus = bus.getD Bus.fresh ∧ mir.subscribed = o.subscribeOk := by
  simp only [voiceCallFromPath, bind, Except.bind, pure, Except.pure] at h
  repeat' split at h
  all_goals first
    | exact Except.noConfusion h
    | (simp only [Except.ok.injEq] at h; rw [← h]; exact ⟨rfl, rfl⟩)

/-- A failed property fetch makes the whole of `fromPath` fail with the
same fault. -/
theorem voiceCallFromPath_fetch_error (path : String) (bus : Option Bus)
    (o : VoiceCallBusOracle) (e : String) (he : o.fetch = .error e) :
    voiceCallFromPath path bus o = .error e := by
  simp only [voiceCallFromPath, bind, Except.bind, he]

/-- A successful `modemFromDBusObject` records the bus it was given
(default `systemBus()` when none). -/
theorem modemFromDBusObject_ok_bus (path : String) (m : RawMap)
    (bus : Option Bus) (mm : ModemMirror)
    (h : modemFromDBusObject path m bus = .ok mm) :
    mm.bus = bus.getD Bus.fresh := by
  simp only [modemFromDBusObject, bind, Except.bind, pure, Except.pure] at h
  repeat' split at h
  all_goals first
    | exact Except.noConfusion h
    | (simp only [Except.ok.injEq] at h; rw [← h]; exact rfl)

/-! ## Claims -/

/-- Claim C2: for every modem whose capability set lacks interface `I`,
each dependent constructor (`NetworkRegistration.ofModem`,
`VoiceCallManager.ofModem`, `Handsfree.ofModem`) fails with the capability
error naming the modem's path and the missing interface, and issues zero
RPCs against the bus. -/
theorem capability_gate_blocks_and_issues_no_rpc :
    ∀ (m : ModemMirror) (props : RawMap) (ifs : List String),
      m.interfaces = JSVal.strList ifs →
      (("org.ofono.NetworkRegistration" ∉ ifs) →
        networkRegistrationOfModem m props =
          (.error ("node-ofono: Network.ofModem(): Modem " ++ m.path ++
            " does not support NetworkRegistration interface"), [])) ∧
      (("org.ofono.VoiceCallManager" ∉ ifs) →
        voiceCallManagerOfModem m props =
          (.error ("node-ofono: VoiceCallManager.ofModem(): Modem " ++ m.path ++
            " does not support VoiceCallManager interface"), [])) ∧
      (("org.ofono.Handsfree" ∉ ifs) →
        handsfreeOfModem m props =
          (.error ("node-ofono: Handsfree.ofModem(): Modem " ++ m.path ++
            " does not support Handsfree interface"), [])) := by
  intro m props ifs hifs
  refine ⟨?_, ?_, ?_⟩ <;> intro h
  · simp [networkRegistrationOfModem, hifs, jsIndexOf,
      (strListIndexOf_eq_neg_one_iff ifs _).mpr h]
  · simp [voiceCallManagerOfModem, hifs, jsIndexOf,
      (strListIndexOf_eq_neg_one_iff ifs _).mpr h]
  · simp [handsfreeOfModem, hifs, jsIndexOf,
      (strListIndexOf_eq_neg_one_iff ifs _).mpr h]

/-- Witness for C2 at a concrete modem whose only interface is
`org.ofono.SimManager`. -/
theorem capability_gate_blocks_witness :
    ("org.ofono.NetworkRegistration" ∉ ["org.ofono.SimManager"]) ∧
    ("org.ofono.VoiceCallManager" ∉ ["org.ofono.SimManager"]) ∧
    ("org.ofono.Handsfree" ∉ ["org.ofono.SimManager"]) ∧
    networkRegistrationOfModem mEx emptyRaw =
      (.error ("node-ofono: Network.ofModem(): Modem " ++ mEx.path ++
        " does not support NetworkRegistration interface"), []) ∧
    voiceCallManagerOfModem mEx emptyRaw =
      (.error ("node-ofono: VoiceCallManager.ofModem(): Modem " ++ mEx.path ++
        " does not support VoiceCallManager interface"), []) ∧
    handsfreeOfModem mEx emptyRaw =
      (.error ("node-ofono: Handsfree.ofModem(): Modem " ++ mEx.path ++
        " does not support Handsfree interface"), []) := by
  have h := capability_gate_blocks_and_issues_no_rpc mEx emptyRaw
    ["org.ofono.SimManager"] rfl
  exact ⟨by decide, by decide, by decide,
    h.1 (by decide), h.2.1 (by decide), h.2.2 (by decide)⟩

/-- Claim C4 (amended): an incoming `State` notification whose payload
matches no `VoiceCallState` member NAME does not raise out of the handler
and leaves every other snapshot property unchanged, but it does NOT leave
the affected property at its previous value: the handler stores the failed
enum lookup, i.e. JavaScript `undefined`, and still emits a change
event. -/
theorem unknown_enum_state_sets_undefined :
    ∀ (s : VoiceCallMirror) (v : JSVal),
      v ∉ ([JSVal.str "Active", JSVal.str "Held", JSVal.str "Dialing",
            JSVal.str "Alerting", JSVal.str "Incoming", JSVal.str "Waiting",
            JSVal.str "Disconnected"] : List JSVal) →
      voiceCallStep s "State" v = ({ s with state := JSVal.undefined }, true) := by
  intro s v hv
  have hl : vcsLookup v = JSVal.undefined := by
    unfold vcsLookup
    split <;> simp_all
  simp [voiceCallStep, hl]

/-- Counterexample to C4 as stated: with the snapshot previously holding
`active`, a `State` notification carrying the unrecognized string `bogus`
does not keep the previous value — the snapshot field becomes
`undefined`. -/
theorem unknown_enum_state_not_previous_value :
    (voiceCallStep vcPrev "State" (JSVal.str "bogus")).1.state = JSVal.undefined ∧
    vcPrev.state = JSVal.str "active" ∧
    (voiceCallStep vcPrev "State" (JSVal.str "bogus")).1.state ≠ vcPrev.state := by
  exact ⟨rfl, rfl, by decide⟩

/-- Witness for the amended C4 at a concrete snapshot and payload. -/
theorem unknown_enum_state_witness :
    (JSVal.str "weird" ∉ ([JSVal.str "Active", JSVal.str "Held",
      JSVal.str "Dialing", JSVal.str "Alerting", JSVal.str "Incoming",
      JSVal.str "Waiting", JSVal.str "Disconnected"] : List JSVal)) ∧
    voiceCallStep vcPrev "State" (JSVal.str "weird") =
      ({ vcPrev with state := JSVal.undefined }, true) := by
  exact ⟨by decide,
    unknown_enum_state_sets_undefined vcPrev (JSVal.str "weird") (by decide)⟩

/-- Claim C5 (code-bug evidence): a notification with an unrecognized
property name leaves every snapshot field unchanged in both handlers, and
`Modem`'s handler emits no local change event — but `NetworkRegistration`'s
handler DOES emit one, because its default branch ends in `break` instead
of `return` and falls through to `this.emit('change')`. -/
theorem networkRegistration_unknown_property_emits_change :
    (∀ (s : NetworkRegistrationMirror) (v : JSVal),
      networkRegistrationStep s "EmergencyAlerts" v = (s, true)) ∧
    (∀ (s : ModemMirror) (v : JSVal),
      modemStep s "EmergencyAlerts" v = (s, false)) ∧
    networkRegistrationStep nrEx "EmergencyAlerts" (JSVal.bool true) = (nrEx, true) := by
  refine ⟨?_, ?_, rfl⟩
  · intro s v; simp [networkRegistrationStep]
  · intro s v; simp [modemStep]

/-- Claim C6: executing a writable property's setter (which updates the
snapshot optimistically) followed by a `PropertyChanged` notification for
the same property carrying a different value leaves the snapshot equal to
the notification's value, for each of `Modem`'s three writable
properties. -/
theorem setter_then_notification_notification_wins :
    ∀ (s : ModemMirror) (v w : JSVal), v ≠ w →
      (modemStep (modemSetOnline s v).1 "Online" w).1.online = w ∧
      (modemStep (modemSetPowered s v).1 "Powered" w).1.powered = w ∧
      (modemStep (modemSetLockdown s v).1 "Lockdown" w).1.lockdown = w := by
  intro s v w _
  refine ⟨?_, ?_, ?_⟩ <;>
    simp [modemStep, modemSetOnline, modemSetPowered, modemSetLockdown]

/-- Witness for C6 at a concrete snapshot and a concrete pair of differing
values. -/
theorem setter_then_notification_witness :
    (JSVal.bool true ≠ JSVal.bool false) ∧
    (modemStep (modemSetOnline mEx (JSVal.bool true)).1 "Online"
      (JSVal.bool false)).1.online = JSVal.bool false ∧
    (modemStep (modemSetPowered mEx (JSVal.bool true)).1 "Powered"
      (JSVal.bool false)).1.powered = JSVal.bool false ∧
    (modemStep (modemSetLockdown mEx (JSVal.bool true)).1 "Lockdown"
      (JSVal.bool false)).1.lockdown = JSVal.bool false := by
  have h := setter_then_notification_notification_wins mEx
    (JSVal.bool true) (JSVal.bool false) (by decide)
  exact ⟨by decide, h.1, h.2.1, h.2.2⟩

/-- Claim C1 (amended): for every finite sequence of `PropertyChanged`
notifications applied in arrival order, the final snapshot value of each
modelled property equals the handler's decode of the value carried by the
last notification naming that property — the carried value itself for every
`Modem` property and for every `VoiceCall` property except `State`, whose
handler stores the enum member-name lookup of the carried value — and
properties never named keep their construction value. -/
theorem last_notification_wins :
    (∀ (s : ModemMirror) (evs : List Chg),
      (modemRun s evs).online = (lastNamed "Online" evs).getD s.online ∧
      (modemRun s evs).powered = (lastNamed "Powered" evs).getD s.powered ∧
      (modemRun s evs).lockdown = (lastNamed "Lockdown" evs).getD s.lockdown ∧
      (modemRun s evs).emergency = (lastNamed "Emergency" evs).getD s.emergency ∧
      (modemRun s evs).name = (lastNamed "Name" evs).getD s.name ∧
      (modemRun s evs).manufacturer = (lastNamed "Manufacturer" evs).getD s.manufacturer ∧
      (modemRun s evs).model = (lastNamed "Model" evs).getD s.model ∧
      (modemRun s evs).revision = (lastNamed "Revision" evs).getD s.revision ∧
      (modemRun s evs).serial = (lastNamed "Serial" evs).getD s.serial ∧
      (modemRun s evs).interfaces = (lastNamed "Interfaces" evs).getD s.interfaces ∧
      (modemRun s evs).type = (lastNamed "Type" evs).getD s.type) ∧
    (∀ (s : VoiceCallMirror) (evs : List Chg),
      (voiceCallRun s evs).lineIdentification = (lastNamed "LineIdentification" evs).getD s.lineIdentification ∧
      (voiceCallRun s evs).incomingLine = (lastNamed "IncomingLine" evs).getD s.incomingLine ∧
      (voiceCallRun s evs).name = (lastNamed "Name" evs).getD s.name ∧
      (voiceCallRun s evs).multiparty = (lastNamed "Multiparty" evs).getD s.multiparty ∧
      (voiceCallRun s evs).state = ((lastNamed "State" evs).map vcsLookup).getD s.state ∧
      (voiceCallRun s evs).startTime = (lastNamed "StartTime" evs).getD s.startTime ∧
      (voiceCallRun s evs).information = (lastNamed "Information" evs).getD s.information ∧
      (voiceCallRun s evs).icon = (lastNamed "Icon" evs).getD s.icon ∧
      (voiceCallRun s evs).emergency = (lastNamed "Emergency" evs).getD s.emergency ∧
      (voiceCallRun s evs).remoteHeld = (lastNamed "RemoteHeld" evs).getD s.remoteHeld ∧
      (voiceCallRun s evs).remoteMultiparty = (lastNamed "RemoteMultiparty" evs).getD s.remoteMultiparty) := by
  constructor
  · intro s evs
    refine ⟨?_, ?_, ?_, ?_, ?_, ?_, ?_, ?_, ?_, ?_, ?_⟩
    · have h := foldl_lastNamed modemApply (fun st => st.online) "Online" id
        (by intro st v; rfl)
        (by intro st n v hn
            unfold modemApply modemStep
            split <;> first | rfl | simp_all)
        evs s
      simpa [modemRun, Option.map_id] using h
    · have h := foldl_lastNamed modemApply (fun st => st.powered) "Powered" id
        (by intro st v; rfl)
        (by intro st n v hn
            unfold modemApply modemStep
            split <;> first | rfl | simp_all)
        evs s
      simpa [modemRun, Option.map_id] using h
    · have h := foldl_lastNamed modemApply (fun st => st.lockdown) "Lockdown" id
        (by intro st v; rfl)
        (by intro st n v hn
            unfold modemApply modemStep
            split <;> first | rfl | simp_all)
        evs s
      simpa [modemRun, Option.map_id] using h
    · have h := foldl_lastNamed modemApply (fun st => st.emergency) "Emergency" id
        (by intro st v; rfl)
        (by intro st n v hn
            unfold modemApply modemStep
            split <;> first | rfl | simp_all)
        evs s
      simpa [modemRun, Option.map_id] using h
    · have h := foldl_lastNamed modemApply (fun st => st.name) "Name" id
        (by intro st v; rfl)
        (by intro st n v hn
            unfold modemApply modemStep
            split <;> first | rfl | simp_all)
        evs s
      simpa [modemRun, Option.map_id] using h
    · have h := foldl_lastNamed modemApply (fun st => st.manufacturer) "Manufacturer" id
        (by intro st v; rfl)
        (by intro st n v hn
            unfold modemApply modemStep
            split <;> first | rfl | simp_all)
        evs s
      simpa [modemRun, Option.map_id] using h
    · have h := foldl_lastNamed modemApply (fun st => st.model) "Model" id
        (by intro st v; rfl)
        (by intro st n v hn
            unfold modemApply modemStep
            split <;> first | rfl | simp_all)
        evs s
      simpa [modemRun, Option.map_id] using h
    · have h := foldl_lastNamed modemApply (fun st => st.revision) "Revision" id
        (by intro st v; rfl)
        (by intro st n v hn
            unfold modemApply modemStep
            split <;> first | rfl | simp_all)
        evs s
      simpa [modemRun, Option.map_id] using h
    · have h := foldl_lastNamed modemApply (fun st => st.serial) "Serial" id
        (by intro st v; rfl)
        (by intro st n v hn
            unfold modemApply modemStep
            split <;> first | rfl | simp_all)
        evs s
      simpa [modemRun, Option.map_id] using h
    · have h := foldl_lastNamed modemApply (fun st => st.interfaces) "Interfaces" id
        (by intro st v; rfl)
        (by intro st n v hn
            unfold modemApply modemStep
            split <;> first | rfl | simp_all)
        evs s
      simpa [modemRun, Option.map_id] using h
    · have h := foldl_lastNamed modemApply (fun st => st.type) "Type" id
        (by intro st v; rfl)
        (by intro st n v hn
            unfold modemApply modemStep
            split <;> first | rfl | simp_all)
        evs s
      simpa [modemRun, Option.map_id] using h
  · intro s evs
    refine ⟨?_, ?_, ?_, ?_, ?_, ?_, ?_, ?_, ?_, ?_, ?_⟩
    · have h := foldl_lastNamed voiceCallApply (fun st => st.lineIdentification) "LineIdentification" id
        (by intro st v; rfl)
        (by intro st n v hn
            unfold voiceCallApply voiceCallStep
            split <;> first | rfl | simp_all)
        evs s
      simpa [voiceCallRun, Option.map_id] using h
    · have h := foldl_lastNamed voiceCallApply (fun st => st.incomingLine) "IncomingLine" id
        (by intro st v; rfl)
        (by intro st n v hn
            unfold voiceCallApply voiceCallStep
            split <;> first | rfl | simp_all)
        evs s
      simpa [voiceCallRun, Option.map_id] using h
    · have h := foldl_lastNamed voiceCallApply (fun st => st.name) "Name" id
        (by intro st v; rfl)
        (by intro st n v hn
            unfold voiceCallApply voiceCallStep
            split <;> first | rfl | simp_all)
        evs s
      simpa [voiceCallRun, Option.map_id] using h
    · have h := foldl_lastNamed voiceCallApply (fun st => st.multiparty) "Multiparty" id
        (by intro st v; rfl)
        (by intro st n v hn
            unfold voiceCallApply voiceCallStep
            split <;> first | rfl | simp_all)
        evs s
      simpa [voiceCallRun, Option.map_id] using h
    · have h := foldl_lastNamed voiceCallApply (fun st => st.state) "State" vcsLookup
        (by intro st v; rfl)
        (by intro st n v hn
            unfold voiceCallApply voiceCallStep
            split <;> first | rfl | simp_all)
        evs s
      simpa [voiceCallRun] using h
    · have h := foldl_lastNamed voiceCallApply (fun st => st.startTime) "StartTime" id
        (by intro st v; rfl)
        (by intro st n v hn
            unfold voiceCallApply voiceCallStep
            split <;> first | rfl | simp_all)
        evs s
      simpa [voiceCallRun, Option.map_id] using h
    · have h := foldl_lastNamed voiceCallApply (fun st => st.information) "Information" id
        (by intro st v; rfl)
        (by intro st n v hn
            unfold voiceCallApply voiceCallStep
            split <;> first | rfl | simp_all)
        evs s
      simpa [voiceCallRun, Option.map_id] using h
    · have h := foldl_lastNamed voiceCallApply (fun st => st.icon) "Icon" id
        (by intro st v; rfl)
        (by intro st n v hn
            unfold voiceCallApply voiceCallStep
            split <;> first | rfl | simp_all)
        evs s
      simpa [voiceCallRun, Option.map_id] using h
    · have h := foldl_lastNamed voiceCallApply (fun st => st.emergency) "Emergency" id
        (by intro st v; rfl)
        (by intro st n v hn
            unfold voiceCallApply voiceCallStep
            split <;> first | rfl | simp_all)
        evs s
      simpa [voiceCallRun, Option.map_id] using h
    · have h := foldl_lastNamed voiceCallApply (fun st => st.remoteHeld) "RemoteHeld" id
        (by intro st v; rfl)
        (by intro st n v hn
            unfold voiceCallApply voiceCallStep
            split <;> first | rfl | simp_all)
        evs s
      simpa [voiceCallRun, Option.map_id] using h
    · have h := foldl_lastNamed voiceCallApply (fun st => st.remoteMultiparty) "RemoteMultiparty" id
        (by intro st v; rfl)
        (by intro st n v hn
            unfold voiceCallApply voiceCallStep
            split <;> first | rfl | simp_all)
        evs s
      simpa [voiceCallRun, Option.map_id] using h

/-- Counterexample to C1 as stated: a `State` notification carrying the
string `bogus` is the last (only) notification naming `State`, yet the
final snapshot value is `undefined`, not the carried value. -/
theorem voicecall_state_snapshot_ne_carried_value :
    lastNamed "State" [("State", JSVal.str "bogus")] = some (JSVal.str "bogus") ∧
    (voiceCallRun vcPrev [("State", JSVal.str "bogus")]).state = JSVal.undefined ∧
    (voiceCallRun vcPrev [("State", JSVal.str "bogus")]).state ≠ JSVal.str "bogus" := by
  exact ⟨rfl, rfl, by decide⟩

/-- Claim C3 (amended): reading every modelled property getter immediately
after `fromDBusObject` returns exactly the decoded form of the supplied raw
map: mandatory properties as carried; `Modem`'s optional properties
null-coalesced, so an absent one reads back as `null`; `VoiceCall`'s
optional properties as carried, so an absent one reads back as JavaScript
`undefined` (absent, but not `null`); and `State` as the enum member-NAME
lookup of the raw string — the member's value when the raw string is a
member name, `undefined` otherwise (in particular for the lowercase wire
values). -/
theorem fromKnownData_getters :
    (∀ (path : String) (m : RawMap) (bus : Option Bus) (mir : ModemMirror)
       (onl pw lk ifs ty : JSVal),
       m "Online" = some onl → m "Powered" = some pw → m "Lockdown" = some lk →
       m "Interfaces" = some ifs → m "Type" = some ty →
       modemFromDBusObject path m bus = .ok mir →
       mir.online = onl ∧ mir.powered = pw ∧ mir.lockdown = lk ∧
       mir.interfaces = ifs ∧ mir.type = ty ∧
       mir.emergency = nullish (optGet m "Emergency") ∧
       mir.name = nullish (optGet m "Name") ∧
       mir.manufacturer = nullish (optGet m "Manufacturer") ∧
       mir.model = nullish (optGet m "Model") ∧
       mir.revision = nullish (optGet m "Revision") ∧
       mir.serial = nullish (optGet m "Serial")) ∧
    (∀ (path : String) (m : RawMap) (bus : Option Bus) (subOk : Bool)
       (mir : VoiceCallMirror) (li nm mp st em rh rm : JSVal),
       m "LineIdentification" = some li → m "Name" = some nm →
       m "Multiparty" = some mp → m "State" = some st →
       m "Emergency" = some em → m "RemoteHeld" = some rh →
       m "RemoteMultiparty" = some rm →
       voiceCallFromDBusObject path m bus subOk = .ok mir →
       mir.lineIdentification = li ∧ mir.name = nm ∧ mir.multiparty = mp ∧
       mir.state = vcsLookup st ∧ mir.emergency = em ∧ mir.remoteHeld = rh ∧
       mir.remoteMultiparty = rm ∧
       mir.incomingLine = optGet m "IncomingLine" ∧
       mir.startTime = optGet m "StartTime" ∧
       mir.information = optGet m "Information" ∧
       mir.icon = optGet m "Icon") := by
  constructor
  · intro path m bus mir onl pw lk ifs ty h1 h2 h3 h4 h5 hok
    simp only [modemFromDBusObject, mandGet, h1, h2, h3, h4, h5, bind,
      Except.bind, pure, Except.pure, Except.ok.injEq] at hok
    rw [← hok]
    exact ⟨rfl, rfl, rfl, rfl, rfl, rfl, rfl, rfl, rfl, rfl, rfl⟩
  · intro path m bus subOk mir li nm mp st em rh rm h1 h2 h3 h4 h5 h6 h7 hok
    simp only [voiceCallFromDBusObject, mandGet, h1, h2, h3, h4, h5, h6, h7,
      bind, Except.bind, pure, Except.pure, Except.ok.injEq] at hok
    rw [← hok]
    exact ⟨rfl, rfl, rfl, rfl, rfl, rfl, rfl, rfl, rfl, rfl, rfl⟩

/-- Counterexample to C3 as stated: a raw voice-call map lacking the
optional `IncomingLine` yields a mirror whose `incomingLine` getter reads
back JavaScript `undefined`, not `null`. -/
theorem voicecall_absent_optional_reads_undefined :
    rawVC "IncomingLine" = none ∧
    voiceCallFromDBusObject "/call0" rawVC (some (Bus.given 3)) true = .ok vcEx3 ∧
    vcEx3.incomingLine = JSVal.undefined ∧
    vcEx3.incomingLine ≠ JSVal.null := by
  exact ⟨rfl, rfl, rfl, by decide⟩

/-- Witness for the amended C3 at concrete raw maps (an absent `Emergency`
on the modem map reading back `null`, and the lowercase wire value `active`
decoding to `undefined` on the voice-call map). -/
theorem fromKnownData_getters_witness :
    rawModemEx "Online" = some (JSVal.bool true) ∧
    rawModemEx "Emergency" = none ∧
    modemFromDBusObject "/modem0" rawModemEx (some (Bus.given 2)) = .ok mFromRawEx ∧
    mFromRawEx.online = JSVal.bool true ∧
    mFromRawEx.emergency = JSVal.null ∧
    mFromRawEx.name = JSVal.str "MyModem" ∧
    rawVC "State" = some (JSVal.str "active") ∧
    vcEx3.state = vcsLookup (JSVal.str "active") := by
  have hm := (fromKnownData_getters).1 "/modem0" rawModemEx (some (Bus.given 2))
    mFromRawEx (JSVal.bool true) (JSVal.bool true) (JSVal.bool false)
    (JSVal.strList ["org.ofono.VoiceCallManager"]) (JSVal.str "hardware")
    rfl rfl rfl rfl rfl rfl
  have hv := (fromKnownData_getters).2 "/call0" rawVC (some (Bus.given 3)) true
    vcEx3 (JSVal.str "+15551234567") (JSVal.str "Alice") (JSVal.bool false)
    (JSVal.str "active") (JSVal.bool false) (JSVal.bool false) (JSVal.bool false)
    rfl rfl rfl rfl rfl rfl rfl rfl
  exact ⟨rfl, rfl, rfl, hm.1, hm.2.2.2.2.2.1, hm.2.2.2.2.2.2.1, rfl,
    hv.2.2.2.1⟩

/-- Claim C7 (amended): a failure of the property-fetch RPC makes
`fromPath` fail with the fault and no mirror is returned; but a failure of
the change-subscription RPC does NOT abort construction — the subscription
is started from the constructor without `await`, so `fromPath` still
returns the mirror, merely without an active subscription. -/
theorem fromPath_failure_behaviour :
    ∀ (path : String) (bus : Option Bus) (o : VoiceCallBusOracle),
      (∀ e, o.fetch = .error e → voiceCallFromPath path bus o = .error e) ∧
      (∀ mir, voiceCallFromPath path bus o = .ok mir →
        mir.subscribed = o.subscribeOk ∧ mir.bus = bus.getD Bus.fresh) := by
  intro path bus o
  constructor
  · intro e he
    exact voiceCallFromPath_fetch_error path bus o e he
  · intro mir h
    have hf := voiceCallFromPath_ok_fields path bus o mir h
    exact ⟨hf.2, hf.1⟩

/-- Counterexample to C7 as stated: on a bus where the fetch succeeds but
the subscription RPC fails, `fromPath` still hands a mirror — one without
an active subscription — to the caller. -/
theorem fromPath_returns_mirror_despite_subscribe_failure :
    oracleNoSub.subscribeOk = false ∧
    voiceCallFromPath "/call0" none oracleNoSub = .ok vcNoSubEx ∧
    vcNoSubEx.subscribed = false := by
  exact ⟨rfl, rfl, rfl⟩

/-- Witness for the amended C7: a concrete failing fetch aborts the whole
construction, and a concrete successful fetch yields a mirror recording the
subscription outcome and the supplied bus. -/
theorem fromPath_failure_witness :
    oracleFetchFail.fetch =
      .error "RemoteFault: org.freedesktop.DBus.Error.NoReply" ∧
    voiceCallFromPath "/call0" none oracleFetchFail =
      .error "RemoteFault: org.freedesktop.DBus.Error.NoReply" ∧
    voiceCallFromPath "/call0" (some (Bus.given 4)) oracleSub = .ok vcSubEx ∧
    vcSubEx.subscribed = oracleSub.subscribeOk ∧
    vcSubEx.bus = (some (Bus.given 4)).getD Bus.fresh := by
  have h1 := (fromPath_failure_behaviour "/call0" none oracleFetchFail).1
    "RemoteFault: org.freedesktop.DBus.Error.NoReply" rfl
  have h2 := (fromPath_failure_behaviour "/call0" (some (Bus.given 4)) oracleSub).2
    vcSubEx rfl
  exact ⟨rfl, h1, rfl, h2.1, h2.2⟩

/-- Claim C8 (amended): both call actions invoke a wrong remote method, but
they do not both map to the hang-up RPC: `answer()` issues exactly the same
RPC sequence as `hangup()` (the remote `Hangup` method, never `Answer`),
while `swapCalls()` issues exactly the same RPC sequence as `transfer()`
(the remote `Transfer` method) — neither `SwapCalls` nor `Hangup`. -/
theorem answer_and_swapCalls_method_names :
    (∀ vc : VoiceCallMirror,
      voiceCallAnswer vc = voiceCallHangup vc ∧
      (voiceCallAnswer vc).any (fun r => rpcIsMethod r "Hangup") = true ∧
      (voiceCallAnswer vc).any (fun r => rpcIsMethod r "Answer") = false) ∧
    (∀ vcm : VoiceCallManagerMirror,
      vcmSwapCalls vcm = vcmTransfer vcm ∧
      (vcmSwapCalls vcm).any (fun r => rpcIsMethod r "Transfer") = true ∧
      (vcmSwapCalls vcm).any (fun r => rpcIsMethod r "SwapCalls") = false ∧
      (vcmSwapCalls vcm).any (fun r => rpcIsMethod r "Hangup") = false) := by
  constructor
  · intro vc
    refine ⟨rfl, ?_, ?_⟩ <;> simp [voiceCallAnswer, rpcIsMethod]
  · intro vcm
    refine ⟨rfl, ?_, ?_, ?_⟩ <;> simp [vcmSwapCalls, vcmTransfer, rpcIsMethod]

/-- Counterexample to C8 as stated: at a concrete manager, `swapCalls()`
issues no `Hangup` RPC at all — it issues `Transfer`. -/
theorem swapCalls_issues_no_hangup :
    (vcmSwapCalls vcmEx).any (fun r => rpcIsMethod r "Hangup") = false ∧
    vcmSwapCalls vcmEx =
      [RPC.getProxyObject "org.ofono" "/modem7",
       RPC.methodCall "org.ofono.VoiceCallManager" "Transfer" []] := by
  exact ⟨rfl, rfl⟩

/-- Claim C9 (amended): `getCalls`, `privateChat` and `createMultiparty`
construct every child `VoiceCall` with the manager's own bus handle, and
`Ofono.getModems` constructs every child `Modem` with the directory's bus
handle; but `VoiceCallManager.dial` and the directory's `ModemAdded`
handler omit the bus argument, so their children are constructed on a fresh
default `systemBus()` connection rather than the parent's handle. -/
theorem child_bus_threading :
    (∀ (vcm : VoiceCallManagerMirror) (calls : List (String × RawMap))
       (subOk : Bool) (cs : List VoiceCallMirror) (rpcs : List RPC),
       vcmGetCalls vcm calls subOk = (.ok cs, rpcs) →
       ∀ c ∈ cs, c.bus = vcm.bus) ∧
    (∀ (vcm : VoiceCallManagerMirror) (pth : String) (paths : List String)
       (o : VoiceCallBusOracle) (cs : List VoiceCallMirror) (rpcs : List RPC),
       vcmPrivateChat vcm pth paths o = (.ok cs, rpcs) →
       ∀ c ∈ cs, c.bus = vcm.bus) ∧
    (∀ (vcm : VoiceCallManagerMirror) (paths : List String)
       (o : VoiceCallBusOracle) (cs : List VoiceCallMirror) (rpcs : List RPC),
       vcmCreateMultiparty vcm paths o = (.ok cs, rpcs) →
       ∀ c ∈ cs, c.bus = vcm.bus) ∧
    (∀ (ofo : OfonoMirror) (modems : List (String × RawMap))
       (ms : List ModemMirror) (rpcs : List RPC),
       ofonoGetModems ofo modems = (.ok ms, rpcs) →
       ∀ c ∈ ms, c.bus = ofo.bus) ∧
    (∀ (vcm : VoiceCallManagerMirror) (number : String) (hide : Option Bool)
       (callPath : String) (o : VoiceCallBusOracle) (vc : VoiceCallMirror)
       (rpcs : List RPC),
       vcmDial vcm number hide callPath o = (.ok vc, rpcs) →
       vc.bus = Bus.fresh) ∧
    (∀ (ofo : OfonoMirror) (pm : String × RawMap) (mm : ModemMirror),
       ofonoModemAdded ofo pm = .ok mm → mm.bus = Bus.fresh) := by
  refine ⟨?_, ?_, ?_, ?_, ?_, ?_⟩
  · intro vcm calls subOk cs rpcs h c hc
    simp only [vcmGetCalls, Prod.mk.injEq] at h
    obtain ⟨a, _, hfa⟩ := listMapE_mem _ calls cs h.1 c hc
    have hb := voiceCallFromDBusObject_ok_bus a.1 a.2 (some vcm.bus) subOk c hfa
    simpa using hb.1
  · intro vcm pth paths o cs rpcs h c hc
    simp only [vcmPrivateChat, Prod.mk.injEq] at h
    obtain ⟨a, _, hfa⟩ := listMapE_mem _ paths cs h.1 c hc
    have hb := voiceCallFromPath_ok_fields a (some vcm.bus) o c hfa
    simpa using hb.1
  · intro vcm paths o cs rpcs h c hc
    simp only [vcmCreateMultiparty, Prod.mk.injEq] at h
    obtain ⟨a, _, hfa⟩ := listMapE_mem _ paths cs h.1 c hc
    have hb := voiceCallFromPath_ok_fields a (some vcm.bus) o c hfa
    simpa using hb.1
  · intro ofo modems ms rpcs h c hc
    simp only [ofonoGetModems, Prod.mk.injEq] at h
    obtain ⟨a, _, hfa⟩ := listMapE_mem _ modems ms h.1 c hc
    have hb := modemFromDBusObject_ok_bus a.1 a.2 (some ofo.bus) c hfa
    simpa using hb
  · intro vcm number hide callPath o vc rpcs h
    simp only [vcmDial, Prod.mk.injEq] at h
    have hb := voiceCallFromPath_ok_fields callPath none o vc h.1
    simpa using hb.1
  · intro ofo pm mm h
    have hb := modemFromDBusObject_ok_bus pm.1 pm.2 none mm h
    simpa using hb

/-- Counterexample to C9 as stated: at a concrete manager holding a
caller-supplied bus handle, the child built by `dial` lives on the fresh
default `systemBus()` connection — not the parent's handle. -/
theorem dial_child_gets_fresh_default_bus :
    vcmEx.bus = Bus.given 7 ∧
    vcmDial vcmEx "5551234567" none "/call1" oracleSub =
      (.ok vcDialChild,
       [RPC.getProxyObject "org.ofono" "/modem7",
        RPC.methodCall "org.ofono.VoiceCallManager" "Dial"
          [JSVal.str "5551234567", JSVal.str "default"]]) ∧
    vcDialChild.bus = Bus.fresh ∧
    vcDialChild.bus ≠ vcmEx.bus := by
  exact ⟨rfl, rfl, rfl, by decide⟩

/-- Witness for the amended C9, instantiating every construction path at
concrete parents and children. -/
theorem child_bus_threading_witness :
    vcmGetCalls vcmEx [("/call0", rawVC)] true =
      (.ok [vcChild7],
       [RPC.getProxyObject "org.ofono" "/modem7",
        RPC.methodCall "org.ofono.VoiceCallManager" "GetCalls" []]) ∧
    vcChild7.bus = vcmEx.bus ∧
    vcmPrivateChat vcmEx "/call0" ["/call1"] oracleSub =
      (.ok [vcPCChild],
       [RPC.getProxyObject "org.ofono" "/modem7",
        RPC.methodCall "org.ofono.VoiceCallManager" "PrivateChat"
          [JSVal.str "/call0"]]) ∧
    vcmCreateMultiparty vcmEx ["/call1"] oracleSub =
      (.ok [vcPCChild],
       [RPC.getProxyObject "org.ofono" "/modem7",
        RPC.methodCall "org.ofono.VoiceCallManager" "CreateMultiparty" []]) ∧
    vcPCChild.bus = vcmEx.bus ∧
    ofonoGetModems ofoEx [("/modem0", rawModemEx)] =
      (.ok [mFromRawEx],
       [RPC.getProxyObject "org.ofono" "/",
        RPC.methodCall "org.ofono.Manager" "GetModems" []]) ∧
    mFromRawEx.bus = ofoEx.bus ∧
    vcDialChild.bus = Bus.fresh ∧
    ofonoModemAdded ofoEx ("/modem0", rawModemEx) = .ok mAddedEx ∧
    mAddedEx.bus = Bus.fresh := by
  refine ⟨rfl, ?_, rfl, rfl, ?_, rfl, ?_, ?_, rfl, ?_⟩
  · exact child_bus_threading.1 vcmEx [("/call0", rawVC)] true [vcChild7] _
      rfl vcChild7 (by simp)
  · exact child_bus_threading.2.1 vcmEx "/call0" ["/call1"] oracleSub
      [vcPCChild] _ rfl vcPCChild (by simp)
  · exact child_bus_threading.2.2.2.1 ofoEx [("/modem0", rawModemEx)]
      [mFromRawEx] _ rfl mFromRawEx (by simp)
  · exact child_bus_threading.2.2.2.2.1 vcmEx "5551234567" none "/call1"
      oracleSub vcDialChild _ rfl
  · exact child_bus_threading.2.2.2.2.2 ofoEx ("/modem0", rawModemEx)
      mAddedEx rfl

/-- Claim C10: `sendTones` throws before issuing any RPC when the string
contains a character outside `0`–`9`, `a`–`d`, `A`–`D`, `*`, `#`;
otherwise — the empty string included — it issues exactly one `SendTones`
RPC carrying the string unchanged. -/
theorem sendTones_charset_gate :
    ∀ (vcm : VoiceCallManagerMirror) (tones : String),
      ((∃ c ∈ tones.data, ¬(('0' ≤ c ∧ c ≤ '9') ∨ ('a' ≤ c ∧ c ≤ 'd') ∨
          ('A' ≤ c ∧ c ≤ 'D') ∨ c = '*' ∨ c = '#')) →
        vcmSendTones vcm tones =
          (.error "node-ofono: VoiceCallManager: sendTones(): invalid tone(s)",
           [])) ∧
      ((∀ c ∈ tones.data, ('0' ≤ c ∧ c ≤ '9') ∨ ('a' ≤ c ∧ c ≤ 'd') ∨
          ('A' ≤ c ∧ c ≤ 'D') ∨ c = '*' ∨ c = '#') →
        vcmSendTones vcm tones =
          (.ok (),
           [RPC.getProxyObject "org.ofono" vcm.path,
            RPC.methodCall "org.ofono.VoiceCallManager" "SendTones"
              [JSVal.str tones]])) := by
  intro vcm tones
  constructor
  · rintro ⟨c, hc, hnot⟩
    have hfail : tones.data.all toneCharTest = false := by
      cases hall : tones.data.all toneCharTest
      · rfl
      · exact absurd ((toneCharTest_iff c).mp (List.all_eq_true.mp hall c hc))
          hnot
    simp [vcmSendTones, hfail]
  · intro hall
    have hpass : tones.data.all toneCharTest = true :=
      List.all_eq_true.mpr (fun c hc => (toneCharTest_iff c).mpr (hall c hc))
    simp [vcmSendTones, hpass]

/-- Witness for C10: a concrete valid string (exercising digits, both
letter cases, `*` and `#`) goes through as one unchanged `SendTones`, and a
concrete string containing `x` is rejected with no RPC. -/
theorem sendTones_charset_witness :
    (∀ c ∈ ("19aD*#" : String).data, ('0' ≤ c ∧ c ≤ '9') ∨ ('a' ≤ c ∧ c ≤ 'd') ∨
      ('A' ≤ c ∧ c ≤ 'D') ∨ c = '*' ∨ c = '#') ∧
    vcmSendTones vcmEx "19aD*#" =
      (.ok (),
       [RPC.getProxyObject "org.ofono" "/modem7",
        RPC.methodCall "org.ofono.VoiceCallManager" "SendTones"
          [JSVal.str "19aD*#"]]) ∧
    ('x' ∈ ("5x" : String).data ∧ ¬(('0' ≤ 'x' ∧ 'x' ≤ '9') ∨ ('a' ≤ 'x' ∧ 'x' ≤ 'd') ∨
      ('A' ≤ 'x' ∧ 'x' ≤ 'D') ∨ 'x' = '*' ∨ 'x' = '#')) ∧
    vcmSendTones vcmEx "5x" =
      (.error "node-ofono: VoiceCallManager: sendTones(): invalid tone(s)", []) := by
  have h1 := (sendTones_charset_gate vcmEx "19aD*#").2 (by decide)
  have h2 := (sendTones_charset_gate vcmEx "5x").1 ⟨'x', by decide, by decide⟩
  exact ⟨by decide, h1, ⟨by decide, by decide⟩, h2⟩
